import Mathlib

/-!
Verification of the Conversational Generation Orchestrator of the
punchy-image backend against its natural-language specification.

The Python sources are shallowly embedded as executable Lean definitions:

* backend/services/conversation.py — the Session/Branch Engine
  (create_session, add_turn, undo_turn, revert_to_turn, branch_from_turn,
  switch_branch, set_subject_lock, get_active_branch).  In-place mutation
  becomes explicit state passing; save_session (which re-stamps updated_at
  with the current time and persists the whole document) is modelled by
  the `now` argument each mutating operation threads into updated_at.
  Fresh uuid4 values and timestamps are passed in as arguments.
* backend/services/openrouter.py — the Generation Client: the HTTP status
  classification handle_error_status, the retry loop of generate_image
  over per-attempt provider responses, the cancellation checkpoints, and
  the payload-compression budget computation of compress_payload_images.
* backend/routers/generate.py — the batch branch of generate(): the
  per-variation model-id resolution and the timed stagger/cancellation
  dispatch loop.
* backend/routers/conversation.py — the failure path of conversation_edit:
  optimistic user-turn append followed by undo_turn in the error handler.
-/

/-- One step in a branch (ConversationTurn of backend/models/conversation.py).
The usage mapping is opaque to the engine and is modelled as an association
list passed through unmodified. -/
structure ConversationTurn where
  turn_id : String
  role : String
  prompt : Option String := none
  image_id : Option String := none
  image_url : Option String := none
  thumbnail_url : Option String := none
  text_response : Option String := none
  timestamp : String
  usage : Option (List (String × String)) := none
deriving Repr, DecidableEq

/-- ConversationBranch of backend/models/conversation.py. -/
structure ConversationBranch where
  branch_id : String
  name : String
  parent_branch_id : Option String := none
  fork_turn_index : Option Int := none
  turns : List ConversationTurn := []
deriving Repr, DecidableEq

/-- ConversationSession of backend/models/conversation.py. -/
structure ConversationSession where
  session_id : String
  project : String := "default"
  model_id : String
  created_at : String
  updated_at : String
  branches : List ConversationBranch := []
  active_branch_id : String := "main"
  subject_locked : Bool := false
  subject_lock_image_id : Option String := none
deriving Repr, DecidableEq

/-- Decimal rendering of a natural number (the f-string interpolation of
Python), implemented with structural fuel so that it evaluates by rfl. -/
def digit_char (n : Nat) : Char := Char.ofNat (48 + n)

/-- Accumulator loop for decimal digits; fuel bounds the number of digits. -/
def nat_digits_aux : Nat → Nat → List Char → List Char
  | 0, _, acc => acc
  | fuel + 1, n, acc =>
    let d := digit_char (n % 10)
    let m := n / 10
    if m = 0 then d :: acc else nat_digits_aux fuel m (d :: acc)

/-- Decimal string of a natural number. -/
def nat_to_string (n : Nat) : String := String.mk (nat_digits_aux (n + 1) n [])

/-- get_active_branch (conversation.py line 110): first branch whose id
equals the session active_branch_id, if any. -/
def get_active_branch (s : ConversationSession) : Option ConversationBranch :=
  s.branches.find? (fun b => b.branch_id == s.active_branch_id)

/-- Replace the first branch in the list whose id matches `bid` by its image
under `f`, leaving every other branch untouched.  This is exactly the effect
of Python mutating the object returned by get_active_branch in place. -/
def update_first : List ConversationBranch → String →
    (ConversationBranch → ConversationBranch) → List ConversationBranch
  | [], _, _ => []
  | b :: rest, bid, f =>
    if b.branch_id == bid then f b :: rest else b :: update_first rest bid f

/-- create_session (conversation.py lines 38-53): one branch named "main",
empty turns, active pointer "main"; save_session stamps updated_at. -/
def create_session (model_id project session_id now : String) : ConversationSession :=
  { session_id := session_id
    project := project
    model_id := model_id
    created_at := now
    updated_at := now
    branches := [{ branch_id := "main", name := "main", turns := [] }]
    active_branch_id := "main" }

/-- add_turn (conversation.py lines 118-146).  Raising ValueError("No active
branch") is modelled as returning the error together with the unchanged
session (the raise happens before any mutation in the source). -/
def add_turn (s : ConversationSession)
    (prompt image_id image_url thumbnail_url text_response : Option String)
    (usage : Option (List (String × String))) (role : String)
    (turn_id timestamp now : String) :
    Except String ConversationTurn × ConversationSession :=
  match get_active_branch s with
  | none => (Except.error "No active branch", s)
  | some _ =>
    let turn : ConversationTurn :=
      { turn_id := turn_id, role := role, prompt := prompt, image_id := image_id
        image_url := image_url, thumbnail_url := thumbnail_url
        text_response := text_response, timestamp := timestamp, usage := usage }
    (Except.ok turn,
      { s with
          branches := update_first s.branches s.active_branch_id
            (fun b => { b with turns := b.turns ++ [turn] })
          updated_at := now })

/-- undo_turn (conversation.py lines 149-156): pop the last turn of the
active branch; returns false without mutation when the branch is missing
or empty. -/
def undo_turn (s : ConversationSession) (now : String) :
    Bool × ConversationSession :=
  match get_active_branch s with
  | none => (false, s)
  | some b =>
    if b.turns.isEmpty then (false, s)
    else
      (true,
        { s with
            branches := update_first s.branches s.active_branch_id
              (fun b2 => { b2 with turns := b2.turns.dropLast })
            updated_at := now })

/-- revert_to_turn (conversation.py lines 159-166): truncate the active
branch to turns[0..turn_index]; false without mutation when the index is
out of range. -/
def revert_to_turn (s : ConversationSession) (turn_index : Int) (now : String) :
    Bool × ConversationSession :=
  match get_active_branch s with
  | none => (false, s)
  | some b =>
    if turn_index < 0 ∨ (b.turns.length : Int) ≤ turn_index then (false, s)
    else
      (true,
        { s with
            branches := update_first s.branches s.active_branch_id
              (fun b2 => { b2 with turns := b2.turns.take (turn_index.toNat + 1) })
            updated_at := now })

/-- branch_from_turn (conversation.py lines 169-186).  The guard raises
ValueError("Invalid turn index for branching") before any mutation, so the
error case carries the unchanged session. -/
def branch_from_turn (s : ConversationSession) (turn_index : Int)
    (new_id now : String) :
    Except String ConversationBranch × ConversationSession :=
  match get_active_branch s with
  | none => (Except.error "Invalid turn index for branching", s)
  | some ab =>
    if turn_index < 0 ∨ (ab.turns.length : Int) ≤ turn_index then
      (Except.error "Invalid turn index for branching", s)
    else
      let nb : ConversationBranch :=
        { branch_id := new_id
          name := "branch-" ++ nat_to_string s.branches.length
          parent_branch_id := some ab.branch_id
          fork_turn_index := some turn_index
          turns := ab.turns.take (turn_index.toNat + 1) }
      (Except.ok nb,
        { s with
            branches := s.branches ++ [nb]
            active_branch_id := new_id
            updated_at := now })

/-- switch_branch (conversation.py lines 189-196): set the active pointer
and persist when the id is found; otherwise return false having touched
nothing (save_session is not called, so updated_at keeps its value). -/
def switch_branch (s : ConversationSession) (branch_id now : String) :
    Bool × ConversationSession :=
  if s.branches.any (fun b => b.branch_id == branch_id) then
    (true, { s with active_branch_id := branch_id, updated_at := now })
  else (false, s)

/-- set_subject_lock (conversation.py lines 249-257): clearing always nulls
the locked image id regardless of the supplied value. -/
def set_subject_lock (s : ConversationSession) (locked : Bool)
    (image_id : Option String) (now : String) : ConversationSession :=
  { s with
      subject_locked := locked
      subject_lock_image_id := if locked then image_id else none
      updated_at := now }

/-- The session invariant of the spec: active_branch_id references an
element of branches. -/
def active_branch_ok (s : ConversationSession) : Bool :=
  s.branches.any (fun b => b.branch_id == s.active_branch_id)

/-- Failure path of conversation_edit (routers/conversation.py lines
151-236): a user turn is appended optimistically with add_turn; when
generate_image raises, the handler runs undo_turn on the session.  (When
add_turn itself raised, the session it hands back is unchanged and the
handler's undo_turn is a no-op on it.) -/
def conversation_edit_failed (s : ConversationSession)
    (prompt turn_id timestamp now now2 : String) : ConversationSession :=
  let r := add_turn s (some prompt) none none none none none "user" turn_id timestamp now
  (undo_turn r.2 now2).2

/-- update_first leaves the branch-id predicate of List.any unchanged
whenever f preserves branch ids. -/
theorem update_first_any_branch_id (bs : List ConversationBranch) (bid x : String)
    (f : ConversationBranch → ConversationBranch)
    (hf : ∀ b, (f b).branch_id = b.branch_id) :
    (update_first bs bid f).any (fun b => b.branch_id == x)
      = bs.any (fun b => b.branch_id == x) := by
  induction bs with
  | nil => rfl
  | cons b rest ih =>
    by_cases h : (b.branch_id == bid) = true
    · simp [update_first, h, hf b]
    · simp only [update_first, h, if_neg, Bool.false_eq_true, not_false_iff, ite_false]
      simp [ih]

/-- Looking up the updated id after update_first returns the image under f
of the original lookup, whenever f preserves branch ids. -/
theorem update_first_find_self (bs : List ConversationBranch) (bid : String)
    (f : ConversationBranch → ConversationBranch)
    (hf : ∀ b, (f b).branch_id = b.branch_id) :
    (update_first bs bid f).find? (fun b => b.branch_id == bid)
      = (bs.find? (fun b => b.branch_id == bid)).map f := by
  induction bs with
  | nil => rfl
  | cons b rest ih =>
    by_cases h : (b.branch_id == bid) = true
    · have hfb : ((f b).branch_id == bid) = true := by rw [hf b]; exact h
      simp [update_first, h, List.find?_cons_of_pos, hfb]
    · have h' : (b.branch_id == bid) = false := by
        cases hb : (b.branch_id == bid) with
        | true => exact absurd hb h
        | false => rfl
      simp [update_first, h', List.find?_cons_of_neg, ih]

/-- Appending a single element never yields the empty list. -/
theorem append_single_isEmpty (l : List ConversationTurn) (a : ConversationTurn) :
    (l ++ [a]).isEmpty = false := by
  cases l <;> rfl

/-- dropLast removes exactly the appended element. -/
theorem dropLast_append_single (l : List ConversationTurn) (a : ConversationTurn) :
    (l ++ [a]).dropLast = l := by
  simp

/-- C1: every session produced by create_session satisfies the invariant
that active_branch_id references an element of branches, and every Engine
operation (add_turn, undo_turn, revert_to_turn, branch_from_turn,
switch_branch, set_subject_lock) preserves it; branch_from_turn makes the
branch it just appended active, and switch_branch only ever sets the active
pointer to an id present among the branches. -/
theorem engine_preserves_active_branch_invariant :
    (∀ model_id project session_id now,
      active_branch_ok (create_session model_id project session_id now) = true)
    ∧ (∀ s prompt image_id image_url thumbnail_url text_response usage role
        turn_id timestamp now,
        active_branch_ok s = true →
        active_branch_ok (add_turn s prompt image_id image_url thumbnail_url
          text_response usage role turn_id timestamp now).2 = true)
    ∧ (∀ s now, active_branch_ok s = true →
        active_branch_ok (undo_turn s now).2 = true)
    ∧ (∀ s i now, active_branch_ok s = true →
        active_branch_ok (revert_to_turn s i now).2 = true)
    ∧ (∀ s i new_id now, active_branch_ok s = true →
        active_branch_ok (branch_from_turn s i new_id now).2 = true)
    ∧ (∀ s i new_id now nb s2,
        branch_from_turn s i new_id now = (Except.ok nb, s2) →
        s2.active_branch_id = nb.branch_id ∧ s2.branches = s.branches ++ [nb])
    ∧ (∀ s branch_id now, active_branch_ok s = true →
        active_branch_ok (switch_branch s branch_id now).2 = true)
    ∧ (∀ s branch_id now s2, switch_branch s branch_id now = (true, s2) →
        s2.active_branch_id = branch_id ∧
        s.branches.any (fun b => b.branch_id == branch_id) = true)
    ∧ (∀ s locked image_id now, active_branch_ok s = true →
        active_branch_ok (set_subject_lock s locked image_id now) = true) := by
  refine ⟨?_, ?_, ?_, ?_, ?_, ?_, ?_, ?_, ?_⟩
  · intro model_id project session_id now
    rfl
  · intro s prompt image_id image_url thumbnail_url text_response usage role
      turn_id timestamp now h
    cases hg : get_active_branch s with
    | none => simpa [add_turn, hg] using h
    | some b =>
      simp only [add_turn, hg, active_branch_ok]
      rw [update_first_any_branch_id]
      · exact h
      · intro b2; rfl
  · intro s now h
    cases hg : get_active_branch s with
    | none => simpa [undo_turn, hg] using h
    | some b =>
      by_cases he : b.turns.isEmpty
      · simpa [undo_turn, hg, he] using h
      · simp only [undo_turn, hg, he, ite_false, active_branch_ok, Bool.false_eq_true]
        rw [update_first_any_branch_id]
        · exact h
        · intro b2; rfl
  · intro s i now h
    cases hg : get_active_branch s with
    | none => simpa [revert_to_turn, hg] using h
    | some b =>
      by_cases hc : i < 0 ∨ (b.turns.length : Int) ≤ i
      · simpa [revert_to_turn, hg, hc] using h
      · simp only [revert_to_turn, hg, hc, ite_false, active_branch_ok]
        rw [update_first_any_branch_id]
        · exact h
        · intro b2; rfl
  · intro s i new_id now h
    cases hg : get_active_branch s with
    | none => simpa [branch_from_turn, hg] using h
    | some ab =>
      by_cases hc : i < 0 ∨ (ab.turns.length : Int) ≤ i
      · simpa [branch_from_turn, hg, hc] using h
      · simp [branch_from_turn, hg, hc, active_branch_ok]
  · intro s i new_id now nb s2 h
    cases hg : get_active_branch s with
    | none => simp [branch_from_turn, hg] at h
    | some ab =>
      by_cases hc : i < 0 ∨ (ab.turns.length : Int) ≤ i
      · simp [branch_from_turn, hg, hc] at h
      · simp only [branch_from_turn, hg, hc, ite_false, Prod.mk.injEq,
          Except.ok.injEq] at h
        obtain ⟨hnb, hs2⟩ := h
        subst hnb hs2
        exact ⟨rfl, rfl⟩
  · intro s branch_id now h
    by_cases hc : s.branches.any (fun b => b.branch_id == branch_id) = true
    · simp [switch_branch, hc, active_branch_ok]
    · simpa [switch_branch, hc] using h
  · intro s branch_id now s2 h
    by_cases hc : s.branches.any (fun b => b.branch_id == branch_id) = true
    · simp only [switch_branch, hc, ite_true, Prod.mk.injEq, true_and] at h
      subst h
      exact ⟨rfl, hc⟩
    · simp [switch_branch, hc] at h
  · intro s locked image_id now h
    simpa [set_subject_lock, active_branch_ok] using h

/-- A concrete two-turn session used to instantiate theorems with
hypotheses on explicit inputs. -/
def sample_turn (id : String) : ConversationTurn :=
  { turn_id := id, role := "user", prompt := some "p", timestamp := "t0" }

/-- A concrete session whose main branch holds two turns. -/
def sample_session : ConversationSession :=
  { session_id := "s1"
    project := "default"
    model_id := "google/gemini-2.5-flash-image"
    created_at := "t0"
    updated_at := "t0"
    branches := [{ branch_id := "main", name := "main",
                   turns := [sample_turn "a", sample_turn "b"] }]
    active_branch_id := "main" }

/-- Witness for C1: the invariant conjuncts applied at concrete inputs. -/
theorem engine_invariant_witness :
    active_branch_ok (create_session "m" "default" "sid" "t") = true ∧
    active_branch_ok (add_turn sample_session (some "hi") none none none none
      none "user" "tid" "ts" "t1").2 = true ∧
    active_branch_ok (undo_turn sample_session "t1").2 = true ∧
    active_branch_ok (revert_to_turn sample_session 0 "t1").2 = true ∧
    active_branch_ok (branch_from_turn sample_session 1 "nb1" "t1").2 = true ∧
    active_branch_ok (switch_branch sample_session "main" "t1").2 = true ∧
    active_branch_ok (set_subject_lock sample_session true (some "img") "t1") = true := by
  have h := engine_preserves_active_branch_invariant
  exact ⟨h.1 "m" "default" "sid" "t",
    h.2.1 sample_session (some "hi") none none none none none "user" "tid" "ts" "t1" rfl,
    h.2.2.1 sample_session "t1" rfl,
    h.2.2.2.1 sample_session 0 "t1" rfl,
    h.2.2.2.2.1 sample_session 1 "nb1" "t1" rfl,
    h.2.2.2.2.2.2.1 sample_session "main" "t1" rfl,
    h.2.2.2.2.2.2.2.2 sample_session true (some "img") "t1" rfl⟩

/-- C2: when the active branch holds turns t0..tn, branch_from_turn with
0 <= i <= n creates a branch whose turns are exactly the prefix t0..ti,
named "branch-" followed by the number of branches before the call, appends
it to the branches list and makes it active; with i < 0 or i > n it fails
with the invalid-index ValueError and leaves the session untouched. -/
theorem branch_from_turn_prefix_copy_spec (s : ConversationSession)
    (ab : ConversationBranch) (i : Int) (new_id now : String)
    (hab : get_active_branch s = some ab) :
    (0 ≤ i → i < (ab.turns.length : Int) →
      ∃ nb s2, branch_from_turn s i new_id now = (Except.ok nb, s2) ∧
        nb.turns = ab.turns.take (i.toNat + 1) ∧
        nb.name = "branch-" ++ nat_to_string s.branches.length ∧
        s2.branches = s.branches ++ [nb] ∧
        s2.active_branch_id = nb.branch_id) ∧
    ((i < 0 ∨ (ab.turns.length : Int) ≤ i) →
      branch_from_turn s i new_id now
        = (Except.error "Invalid turn index for branching", s)) := by
  constructor
  · intro h0 hlt
    have hc : ¬ (i < 0 ∨ (ab.turns.length : Int) ≤ i) := by
      push_neg
      exact ⟨by omega, by omega⟩
    have heq : branch_from_turn s i new_id now =
        (Except.ok ({ branch_id := new_id
                      name := "branch-" ++ nat_to_string s.branches.length
                      parent_branch_id := some ab.branch_id
                      fork_turn_index := some i
                      turns := ab.turns.take (i.toNat + 1) } : ConversationBranch),
         { s with
             branches := s.branches ++
               [{ branch_id := new_id
                  name := "branch-" ++ nat_to_string s.branches.length
                  parent_branch_id := some ab.branch_id
                  fork_turn_index := some i
                  turns := ab.turns.take (i.toNat + 1) }]
             active_branch_id := new_id
             updated_at := now }) := by
      simp [branch_from_turn, hab, hc]
    exact ⟨_, _, heq, rfl, rfl, rfl, rfl⟩
  · intro hc
    simp [branch_from_turn, hab, hc]

/-- Witness for C2 at a concrete session: forking at index 1 of the
two-turn main branch succeeds with the exact prefix, and index 5 fails. -/
theorem branch_from_turn_spec_witness :
    (∃ nb s2, branch_from_turn sample_session 1 "nb1" "t1" = (Except.ok nb, s2) ∧
      nb.turns = [sample_turn "a", sample_turn "b"] ∧
      nb.name = "branch-1" ∧
      s2.branches = sample_session.branches ++ [nb] ∧
      s2.active_branch_id = nb.branch_id) ∧
    branch_from_turn sample_session 5 "nb1" "t1"
      = (Except.error "Invalid turn index for branching", sample_session) := by
  have h := branch_from_turn_prefix_copy_spec sample_session
    ({ branch_id := "main", name := "main",
       turns := [sample_turn "a", sample_turn "b"] } : ConversationBranch)
    1 "nb1" "t1" rfl
  have h5 := branch_from_turn_prefix_copy_spec sample_session
    ({ branch_id := "main", name := "main",
       turns := [sample_turn "a", sample_turn "b"] } : ConversationBranch)
    5 "nb1" "t1" rfl
  refine ⟨?_, h5.2 (Or.inr (by decide))⟩
  obtain ⟨nb, s2, heq, hturns, hname, hbr, hact⟩ := h.1 (by decide) (by decide)
  exact ⟨nb, s2, heq, hturns, hname, hbr, hact⟩

/-- Updating the active branch in place leaves lookup of the active branch
as the image of the original lookup, whenever the update keeps the id. -/
theorem get_active_branch_update (s : ConversationSession)
    (f : ConversationBranch → ConversationBranch) (t : String)
    (hf : ∀ b, (f b).branch_id = b.branch_id) :
    get_active_branch
      { s with branches := update_first s.branches s.active_branch_id f,
               updated_at := t }
      = (get_active_branch s).map f := by
  simp only [get_active_branch]
  exact update_first_find_self s.branches s.active_branch_id f hf

/-- C3: the failure path of a single conversational generation removes the
optimistically appended user turn again, so the active branch of the
resulting session is exactly the active branch the session had before the
attempt (in particular its turn sequence is unchanged). -/
theorem conversation_edit_failure_restores_active_branch
    (s : ConversationSession) (prompt turn_id timestamp now now2 : String) :
    get_active_branch (conversation_edit_failed s prompt turn_id timestamp now now2)
      = get_active_branch s := by
  cases hg : get_active_branch s with
  | none =>
    simp [conversation_edit_failed, add_turn, undo_turn, hg]
  | some b =>
    have h1 : conversation_edit_failed s prompt turn_id timestamp now now2 =
        (undo_turn
          { s with
              branches := update_first s.branches s.active_branch_id
                (fun b3 => { b3 with turns := b3.turns ++
                  [{ turn_id := turn_id, role := "user", prompt := some prompt,
                     timestamp := timestamp : ConversationTurn }] })
              updated_at := now } now2).2 := by
      simp [conversation_edit_failed, add_turn, hg]
    rw [h1]
    have hg1 : get_active_branch
        { s with
            branches := update_first s.branches s.active_branch_id
              (fun b3 => { b3 with turns := b3.turns ++
                [{ turn_id := turn_id, role := "user", prompt := some prompt,
                   timestamp := timestamp : ConversationTurn }] })
            updated_at := now }
        = some { b with turns := b.turns ++
            [{ turn_id := turn_id, role := "user", prompt := some prompt,
               timestamp := timestamp : ConversationTurn }] } := by
      rw [get_active_branch_update s
        (fun b3 => { b3 with turns := b3.turns ++
          [{ turn_id := turn_id, role := "user", prompt := some prompt,
             timestamp := timestamp : ConversationTurn }] }) now (fun _ => rfl), hg]
      rfl
    rw [undo_turn, hg1]
    simp only [append_single_isEmpty, Bool.false_eq_true, ite_false]
    simp only [get_active_branch]
    rw [update_first_find_self
      (update_first s.branches s.active_branch_id
        (fun b3 => { b3 with turns := b3.turns ++
          [{ turn_id := turn_id, role := "user", prompt := some prompt,
             timestamp := timestamp : ConversationTurn }] }))
      s.active_branch_id
      (fun b2 => { b2 with turns := b2.turns.dropLast })
      (fun _ => rfl)]
    rw [update_first_find_self s.branches s.active_branch_id
      (fun b3 => { b3 with turns := b3.turns ++
        [{ turn_id := turn_id, role := "user", prompt := some prompt,
           timestamp := timestamp : ConversationTurn }] })
      (fun _ => rfl)]
    have hfb : s.branches.find? (fun b2 => b2.branch_id == s.active_branch_id)
        = some b := hg
    rw [hfb]
    simp [dropLast_append_single]

/-- C10: switch_branch with a branch id matching no element of
session.branches returns false and leaves the session document entirely
unchanged: the active pointer keeps its value, no branch or turn is
modified, and save_session is not invoked, so updated_at is untouched
(the returned session is literally the input session). -/
theorem switch_branch_unknown_id_frame (s : ConversationSession)
    (branch_id now : String)
    (h : s.branches.any (fun b => b.branch_id == branch_id) = false) :
    switch_branch s branch_id now = (false, s) := by
  simp [switch_branch, h]

/-- Witness for C10 at a concrete session and id. -/
theorem switch_branch_frame_witness :
    switch_branch sample_session "no-such-branch" "t9" = (false, sample_session) :=
  switch_branch_unknown_id_frame sample_session "no-such-branch" "t9" rfl

/-- Lowercasing of a string (str.lower), character by character. -/
def lower_str (s : String) : String := String.mk (s.data.map Char.toLower)

/-- Bool test that `p` occurs as a leading segment of `l`. -/
def chars_lead : List Char → List Char → Bool
  | [], _ => true
  | _ :: _, [] => false
  | p :: ps, c :: cs => p == c && chars_lead ps cs

/-- Bool test that `p` occurs as a contiguous segment of `l`
(the Python `sub in str` operator over the character list). -/
def chars_infix (p : List Char) : List Char → Bool
  | [] => chars_lead p []
  | c :: cs => chars_lead p (c :: cs) || chars_infix p cs

/-- Python `sub in s` on strings. -/
def contains_sub (s sub : String) : Bool := chars_infix sub.data s.data

/-- The 400-classification test of _handle_error_status (openrouter.py
lines 147-148): lowercased message mentions safety, content or policy. -/
def has_policy_wording (msg : String) : Bool :=
  let m := lower_str msg
  contains_sub m "safety" || contains_sub m "content" || contains_sub m "policy"

/-- MAX_RETRIES (openrouter.py line 16). -/
def MAX_RETRIES : Nat := 3

/-- BACKOFF_BASE (openrouter.py line 17). -/
def BACKOFF_BASE : Nat := 2

/-- OpenRouterError (openrouter.py lines 45-57): a typed error with an
error_type tag, a human-readable message and an optional retry-after. -/
structure ORError where
  error_type : String
  message : String
  retry_after : Option Nat := none
deriving Repr, DecidableEq

/-- Result of _handle_error_status: either an OpenRouterError is raised or
the function returns to let the caller retry. -/
inductive HandleResult where
  | raise (e : ORError)
  | allowRetry
deriving Repr, DecidableEq

/-- _handle_error_status (openrouter.py lines 123-164).  The Retry-After
header is modelled as an already-parsed optional number; the Python default
str(BACKOFF_BASE ** (attempt + 1)) becomes Option.getD of the same power. -/
def handle_error_status (status : Nat) (retry_after_header : Option Nat)
    (error_msg : String) (attempt : Nat) : HandleResult :=
  if status = 401 then
    .raise { error_type := "auth", message := "Invalid API key. Update it in Settings." }
  else if status = 402 then
    .raise { error_type := "credits",
             message := "Insufficient credits. Add credits at openrouter.ai." }
  else if status = 429 then
    let retry_after := retry_after_header.getD (BACKOFF_BASE ^ (attempt + 1))
    if MAX_RETRIES - 1 ≤ attempt then
      .raise { error_type := "rate_limit",
               message := "Rate limited. Please wait and try again.",
               retry_after := some retry_after }
    else .allowRetry
  else if status = 400 then
    if has_policy_wording error_msg then
      .raise { error_type := "content_policy",
               message := "Your prompt was flagged by the model\x27s content policy. Try adjusting your prompt." }
    else
      .raise { error_type := "server", message := "Bad request: " ++ error_msg }
  else if status = 413 then
    .raise { error_type := "server",
             message := "Request too large. Try a shorter prompt or smaller image." }
  else if status = 500 ∨ status = 502 ∨ status = 503 then
    if MAX_RETRIES - 1 ≤ attempt then
      .raise { error_type := "server",
               message := "Server error (" ++ nat_to_string status
                 ++ "). The model may be temporarily unavailable." }
    else .allowRetry
  else
    .raise { error_type := "server",
             message := "Unexpected error (" ++ nat_to_string status ++ "): "
               ++ error_msg }

/-- The HTTP response an attempt of generate_image observes: status code,
parsed optional Retry-After header, and the error message extracted from
the body. -/
structure ProviderResp where
  status : Nat
  retry_after_header : Option Nat := none
  error_msg : String := ""
deriving Repr

/-- What one iteration of the generate_image retry loop does with the
response of that attempt. -/
inductive AttemptStep where
  | success
  | fail (e : ORError)
  | retryLater
deriving Repr, DecidableEq

/-- One iteration body of the retry loop (openrouter.py lines 330-333):
status 200 parses and returns; otherwise _handle_error_status either raises
or returns to allow the retry path. -/
def attempt_step (r : ProviderResp) (attempt : Nat) : AttemptStep :=
  if r.status = 200 then .success
  else
    match handle_error_status r.status r.retry_after_header r.error_msg attempt with
    | .raise e => .fail e
    | .allowRetry => .retryLater

/-- The retry loop of generate_image (openrouter.py lines 317-356) over the
per-attempt provider responses, without cancellation and with every attempt
reaching an HTTP response (no transport exception).  Returns the number of
attempts actually made together with the outcome; the fuel is the number of
loop iterations remaining out of MAX_RETRIES. -/
def attempts_loop (resps : Nat → ProviderResp) : Nat → Nat → Nat × Except ORError Unit
  | 0, attempt =>
    (attempt, Except.error { error_type := "server", message := "Max retries exceeded" })
  | fuel + 1, attempt =>
    match attempt_step (resps attempt) attempt with
    | .success => (attempt + 1, Except.ok ())
    | .fail e => (attempt + 1, Except.error e)
    | .retryLater => attempts_loop resps fuel (attempt + 1)

/-- generate_image for a given sequence of per-attempt responses. -/
def run_generate (resps : Nat → ProviderResp) : Nat × Except ORError Unit :=
  attempts_loop resps MAX_RETRIES 0

/-- C4: when every attempt of a generate call receives HTTP 503, the client
makes exactly 3 attempts (two retries) and then fails with a server error;
when the first attempt receives HTTP 401 it fails with an auth error after
that single attempt, with no retry. -/
theorem generate_retry_503_401 :
    (∀ resps : Nat → ProviderResp, (∀ i, i < MAX_RETRIES → (resps i).status = 503) →
      run_generate resps = (3, Except.error
        { error_type := "server",
          message := "Server error (503). The model may be temporarily unavailable." })) ∧
    (∀ resps : Nat → ProviderResp, (resps 0).status = 401 →
      run_generate resps = (1, Except.error
        { error_type := "auth", message := "Invalid API key. Update it in Settings." })) := by
  constructor
  · intro resps h
    have h0 := h 0 (by decide)
    have h1 := h 1 (by decide)
    have h2 := h 2 (by decide)
    simp [run_generate, MAX_RETRIES, attempts_loop, attempt_step,
      handle_error_status, h0, h1, h2]
    rfl
  · intro resps h0
    simp [run_generate, MAX_RETRIES, attempts_loop, attempt_step,
      handle_error_status, h0]

/-- Witness for C4 at concrete response sequences. -/
theorem generate_retry_witness :
    run_generate (fun _ => { status := 503 }) = (3, Except.error
      { error_type := "server",
        message := "Server error (503). The model may be temporarily unavailable." }) ∧
    run_generate (fun _ => { status := 401 }) = (1, Except.error
      { error_type := "auth", message := "Invalid API key. Update it in Settings." }) :=
  ⟨generate_retry_503_401.1 (fun _ => { status := 503 }) (fun _ _ => rfl),
   generate_retry_503_401.2 (fun _ => { status := 401 }) rfl⟩

/-- Counterexample for C5: the code maps HTTP 413 to an error of kind
"server" (not "payload_too_large") and a plain 400 without policy wording
to kind "server" (not "invalid_request"), contradicting the claimed
classification table at these concrete inputs. -/
theorem handle_error_status_counterexample :
    handle_error_status 413 none "" 0
      = .raise { error_type := "server",
                 message := "Request too large. Try a shorter prompt or smaller image." } ∧
    "server" ≠ "payload_too_large" ∧
    handle_error_status 400 none "malformed json" 0
      = .raise { error_type := "server", message := "Bad request: malformed json" } ∧
    "server" ≠ "invalid_request" := by
  refine ⟨rfl, by decide, ?_, by decide⟩
  rfl

/-- C5 (amended): the status classification the code actually implements:
401 fails auth; 402 fails credits; 400 with safety/policy wording fails
content_policy; any other 400 fails with kind server ("Bad request"); 413
fails with kind server; 429 on the final attempt fails rate_limit carrying
a retry-after taken from the header or computed as BACKOFF_BASE^(attempt+1),
and allows a retry before the final attempt; 500/502/503 fail with kind
server on the final attempt and allow a retry before it; any other status
fails with kind server. -/
theorem handle_error_status_code_classification (hdr : Option Nat) (msg : String)
    (attempt : Nat) :
    handle_error_status 401 hdr msg attempt
      = .raise { error_type := "auth", message := "Invalid API key. Update it in Settings." } ∧
    handle_error_status 402 hdr msg attempt
      = .raise { error_type := "credits",
                 message := "Insufficient credits. Add credits at openrouter.ai." } ∧
    (has_policy_wording msg = true →
      handle_error_status 400 hdr msg attempt
        = .raise { error_type := "content_policy",
                   message := "Your prompt was flagged by the model\x27s content policy. Try adjusting your prompt." }) ∧
    (has_policy_wording msg = false →
      handle_error_status 400 hdr msg attempt
        = .raise { error_type := "server", message := "Bad request: " ++ msg }) ∧
    handle_error_status 413 hdr msg attempt
      = .raise { error_type := "server",
                 message := "Request too large. Try a shorter prompt or smaller image." } ∧
    (MAX_RETRIES - 1 ≤ attempt →
      handle_error_status 429 hdr msg attempt
        = .raise { error_type := "rate_limit",
                   message := "Rate limited. Please wait and try again.",
                   retry_after := some (hdr.getD (BACKOFF_BASE ^ (attempt + 1))) }) ∧
    (attempt < MAX_RETRIES - 1 →
      handle_error_status 429 hdr msg attempt = .allowRetry) ∧
    (∀ st, (st = 500 ∨ st = 502 ∨ st = 503) → MAX_RETRIES - 1 ≤ attempt →
      handle_error_status st hdr msg attempt
        = .raise { error_type := "server",
                   message := "Server error (" ++ nat_to_string st
                     ++ "). The model may be temporarily unavailable." }) ∧
    (∀ st, (st = 500 ∨ st = 502 ∨ st = 503) → attempt < MAX_RETRIES - 1 →
      handle_error_status st hdr msg attempt = .allowRetry) ∧
    (∀ st, st ≠ 400 → st ≠ 401 → st ≠ 402 → st ≠ 413 → st ≠ 429 →
      st ≠ 500 → st ≠ 502 → st ≠ 503 →
      handle_error_status st hdr msg attempt
        = .raise { error_type := "server",
                   message := "Unexpected error (" ++ nat_to_string st ++ "): " ++ msg }) := by
  refine ⟨rfl, rfl, ?_, ?_, rfl, ?_, ?_, ?_, ?_, ?_⟩
  · intro h
    simp [handle_error_status, h]
  · intro h
    simp [handle_error_status, h]
  · intro h
    simp [handle_error_status, h]
  · intro h
    simp [handle_error_status, Nat.not_le.mpr h]
  · intro st hst h
    rcases hst with h5 | h5 | h5 <;> subst h5 <;> simp [handle_error_status, h]
  · intro st hst h
    rcases hst with h5 | h5 | h5 <;> subst h5 <;>
      simp [handle_error_status, Nat.not_le.mpr h]
  · intro st h400 h401 h402 h413 h429 h500 h502 h503
    simp [handle_error_status, h400, h401, h402, h413, h429, h500, h502, h503]

/-- Witness for C5 at concrete statuses, messages and attempts. -/
theorem handle_error_status_classification_witness :
    handle_error_status 401 none "" 0
      = .raise { error_type := "auth", message := "Invalid API key. Update it in Settings." } ∧
    handle_error_status 400 none "content policy" 0
      = .raise { error_type := "content_policy",
                 message := "Your prompt was flagged by the model\x27s content policy. Try adjusting your prompt." } ∧
    handle_error_status 400 none "oops" 0
      = .raise { error_type := "server", message := "Bad request: oops" } ∧
    handle_error_status 429 (some 7) "" 2
      = .raise { error_type := "rate_limit",
                 message := "Rate limited. Please wait and try again.",
                 retry_after := some 7 } ∧
    handle_error_status 429 none "" 0 = .allowRetry ∧
    handle_error_status 502 none "" 2
      = .raise { error_type := "server",
                 message := "Server error (502). The model may be temporarily unavailable." } ∧
    handle_error_status 503 none "" 1 = .allowRetry ∧
    handle_error_status 418 none "m" 0
      = .raise { error_type := "server", message := "Unexpected error (418): m" } := by
  have h1 := handle_error_status_code_classification none "content policy" 0
  have h2 := handle_error_status_code_classification none "oops" 0
  have h3 := handle_error_status_code_classification (some 7) "" 2
  have h4 := handle_error_status_code_classification none "" 0
  have h5 := handle_error_status_code_classification none "" 2
  have h6 := handle_error_status_code_classification none "" 1
  have h7 := handle_error_status_code_classification none "m" 0
  refine ⟨h4.1, h1.2.2.1 rfl, h2.2.2.2.1 rfl, h3.2.2.2.2.2.1 (by decide),
    h4.2.2.2.2.2.2.1 (by decide), ?_, ?_, ?_⟩
  · exact h5.2.2.2.2.2.2.2.1 502 (by decide) (by decide)
  · exact h6.2.2.2.2.2.2.2.2.1 503 (by decide) (by decide)
  · exact h7.2.2.2.2.2.2.2.2.2 418 (by decide) (by decide) (by decide) (by decide)
      (by decide) (by decide) (by decide) (by decide)

/-- The pre-attempt cancellation checkpoint of generate_image
(openrouter.py lines 318-319): if the cancel event is already set the call
raises OpenRouterError("timeout", "Generation cancelled by user"). -/
def pre_attempt_cancel_check (cancel_set : Bool) : Option ORError :=
  if cancel_set then
    some { error_type := "timeout", message := "Generation cancelled by user" }
  else none

/-- The backoff sleep of generate_image (openrouter.py lines 346-354):
asyncio.wait_for(cancel_event.wait(), timeout=backoff) races the cancel
event against the timer.  cancel_fires_in is the time from the start of
the sleep until the cancel event fires (none when it never fires); the
result is the elapsed time of the sleep together with the raised error,
if any. -/
def backoff_wait (backoff : Nat) (cancel_fires_in : Option Nat) :
    Nat × Option ORError :=
  match cancel_fires_in with
  | some t =>
    if t < backoff then
      (t, some { error_type := "timeout", message := "Generation cancelled by user" })
    else (backoff, none)
  | none => (backoff, none)

/-- Counterexample for C6: the error raised on a signalled cancellation has
error_type "timeout", not the claimed kind "cancelled". -/
theorem cancel_error_kind_counterexample :
    pre_attempt_cancel_check true
      = some { error_type := "timeout", message := "Generation cancelled by user" } ∧
    "timeout" ≠ "cancelled" ∧
    backoff_wait 4 (some 1)
      = (1, some { error_type := "timeout", message := "Generation cancelled by user" }) := by
  exact ⟨rfl, by decide, rfl⟩

/-- C6 (amended): with a cancellation token, cancellation signalled before
an attempt makes the call fail immediately with an error of kind "timeout"
carrying the message "Generation cancelled by user"; cancellation firing
during a backoff sleep of BACKOFF_BASE^(attempt+1) seconds aborts that
sleep after only the elapsed time t (strictly inside the sleep window)
with the same "timeout"-kind cancellation error, rather than completing
the full backoff wait. -/
theorem cancellation_aborts_with_timeout_kind (attempt t : Nat)
    (h : t < BACKOFF_BASE ^ (attempt + 1)) :
    pre_attempt_cancel_check true
      = some { error_type := "timeout", message := "Generation cancelled by user" } ∧
    backoff_wait (BACKOFF_BASE ^ (attempt + 1)) (some t)
      = (t, some { error_type := "timeout", message := "Generation cancelled by user" }) ∧
    t < BACKOFF_BASE ^ (attempt + 1) := by
  refine ⟨rfl, ?_, h⟩
  simp [backoff_wait, h]

/-- Witness for C6: cancellation 3 seconds into the first backoff sleep
(4 seconds) aborts at the 3-second mark. -/
theorem cancellation_abort_witness :
    pre_attempt_cancel_check true
      = some { error_type := "timeout", message := "Generation cancelled by user" } ∧
    backoff_wait (BACKOFF_BASE ^ (0 + 1)) (some 3) = (3, none) ∨
    (pre_attempt_cancel_check true
      = some { error_type := "timeout", message := "Generation cancelled by user" } ∧
    backoff_wait (BACKOFF_BASE ^ (1 + 1)) (some 3)
      = (3, some { error_type := "timeout", message := "Generation cancelled by user" }) ∧
    3 < BACKOFF_BASE ^ (1 + 1)) :=
  Or.inr (cancellation_aborts_with_timeout_kind 1 3 (by decide))

/-- The per-image budget computation of _compress_payload_images
(openrouter.py lines 167-202) over the sizes of the embedded data-image
parts, with the quality/downscale ladder of compress_for_size_limit
abstracted as a function from original size and byte budget to the
compressed size it returns (none when it raises ValueError).  Each image
part is recompressed with budget (max_bytes - max_bytes / 10) / 2; a
ladder failure raises the size-limit OpenRouterError.  The final
whole-payload re-check of lines 204-212 is outside this claim. -/
def compress_payload_images (image_sizes : List Nat) (max_bytes : Nat)
    (compress : Nat → Nat → Option Nat) : Except ORError (List Nat) :=
  let overhead := max_bytes / 10
  let target := max_bytes - overhead
  image_sizes.mapM (fun sz =>
    match compress sz (target / 2) with
    | some c => Except.ok c
    | none =>
      Except.error
        { error_type := "server"
          message := "Reference image too large for this model\x27s 4.5MB request limit. Try using a smaller image." })

/-- The per-image budget as the claim words it: the remainder after the 10%
overhead, divided evenly across the k images needing compression. -/
def spec_per_image_budget (max_bytes k : Nat) : Nat :=
  (max_bytes - max_bytes / 10) / k

/-- Counterexample for C7: with a byte budget of 100 and a single embedded
image, the code hands the image a budget of (100 - 10) / 2 = 45 bytes,
while the claimed even division across the one image would give 90. -/
theorem per_image_budget_counterexample :
    compress_payload_images [12345] 100 (fun _ budget => some budget)
      = Except.ok [45] ∧
    spec_per_image_budget 100 1 = 90 ∧
    (45 : Nat) ≠ 90 := by
  exact ⟨rfl, rfl, by decide⟩

/-- C7 (amended): whenever the serialized body exceeds the budget, the
compression step reserves 10% of the byte budget as overhead and gives
every embedded image the same fixed per-image budget of half the remainder,
(max_bytes - max_bytes / 10) / 2, regardless of how many images are being
compressed. -/
theorem compress_budget_is_half_of_target (image_sizes : List Nat) (max_bytes : Nat) :
    compress_payload_images image_sizes max_bytes (fun _ budget => some budget)
      = Except.ok (List.replicate image_sizes.length ((max_bytes - max_bytes / 10) / 2)) := by
  induction image_sizes with
  | nil => rfl
  | cons sz rest ih =>
    simp only [compress_payload_images, List.mapM_cons] at ih ⊢
    rw [List.length_cons, List.replicate_succ]
    simp only [bind, Except.bind, pure, Except.pure] at ih ⊢
    rw [ih]

/-- The model ids of backend/config.py MODELS, in declaration order. -/
def KNOWN_MODELS : List String :=
  ["google/gemini-2.5-flash-image", "google/gemini-3-pro-image-preview",
   "openai/gpt-5-image", "black-forest-labs/flux.2-max",
   "bytedance-seed/seedream-4.5"]

/-- An HTTPException detail raised by the generate router. -/
structure ApiError where
  status_code : Nat
  error_type : String
  message : String
deriving Repr, DecidableEq

/-- The per-variation model-id resolution of the batch branch of generate()
(generate.py lines 197-207).  Python only takes the validation branch when
request.model_ids is truthy (non-None and non-empty) AND its length equals
the variation count; each id is then checked against MODELS, raising
HTTPException(400, error_type "server") at the first unknown id.  In every
other case, including a length mismatch, the supplied list is ignored and
the base model id is replicated. -/
def resolve_variation_models (model_id : String) (model_ids : Option (List String))
    (variations : Nat) : Except ApiError (List String) :=
  match model_ids with
  | some mids =>
    if mids ≠ [] ∧ mids.length = variations then
      match mids.find? (fun m => !(KNOWN_MODELS.contains m)) with
      | some m =>
        Except.error
          { status_code := 400, error_type := "server"
            message := "Unknown model in model_ids: " ++ m }
      | none => Except.ok mids
    else Except.ok (List.replicate variations model_id)
  | none => Except.ok (List.replicate variations model_id)

/-- Counterexample for C8: a supplied per-variation model list whose length
differs from the variation count is silently ignored (the base model id is
used for both variations) instead of failing with invalid_argument — even
when it names an unknown model; and when the lengths do match, an unknown
id is rejected with error_type "server", not "invalid_argument". -/
theorem model_ids_length_mismatch_counterexample :
    resolve_variation_models "google/gemini-2.5-flash-image"
        (some ["not-a-model"]) 2
      = Except.ok ["google/gemini-2.5-flash-image", "google/gemini-2.5-flash-image"] ∧
    resolve_variation_models "google/gemini-2.5-flash-image"
        (some ["not-a-model", "openai/gpt-5-image"]) 2
      = Except.error
          { status_code := 400, error_type := "server"
            message := "Unknown model in model_ids: not-a-model" } ∧
    "server" ≠ "invalid_argument" := by
  exact ⟨rfl, rfl, by decide⟩

/-- C8 (amended): when perVariationModelIds is supplied non-empty with
length equal to variationCount, every id must be known, else the call fails
with HTTP 400 carrying error_type "server" naming the first unknown id;
when the supplied length differs from variationCount (or the list is
empty), the list is silently ignored and the base model id is used for
every variation; the same replication happens when no list is supplied. -/
theorem resolve_variation_models_spec (model_id : String) (mids : List String)
    (variations : Nat) :
    (mids ≠ [] → mids.length = variations →
      (∀ m ∈ mids, m ∈ KNOWN_MODELS) →
      resolve_variation_models model_id (some mids) variations = Except.ok mids) ∧
    (mids ≠ [] → mids.length = variations →
      ∀ m, mids.find? (fun x => !(KNOWN_MODELS.contains x)) = some m →
      resolve_variation_models model_id (some mids) variations
        = Except.error
            { status_code := 400, error_type := "server"
              message := "Unknown model in model_ids: " ++ m }) ∧
    (¬ (mids ≠ [] ∧ mids.length = variations) →
      resolve_variation_models model_id (some mids) variations
        = Except.ok (List.replicate variations model_id)) ∧
    resolve_variation_models model_id none variations
      = Except.ok (List.replicate variations model_id) := by
  refine ⟨?_, ?_, ?_, rfl⟩
  · intro hne hlen hall
    have hfind : mids.find? (fun x => !(KNOWN_MODELS.contains x)) = none := by
      rw [List.find?_eq_none]
      intro x hx
      simp [hall x hx]
    simp only [resolve_variation_models]
    rw [if_pos ⟨hne, hlen⟩, hfind]
  · intro hne hlen m hfind
    simp only [resolve_variation_models]
    rw [if_pos ⟨hne, hlen⟩, hfind]
  · intro hc
    simp only [resolve_variation_models]
    rw [if_neg hc]

/-- Witness for C8 at concrete inputs: a fully known matching-length list
is used as supplied; an unknown id in a matching-length list is rejected;
a mismatched-length list falls back to the base model. -/
theorem resolve_variation_models_witness :
    resolve_variation_models "openai/gpt-5-image"
        (some ["openai/gpt-5-image", "bytedance-seed/seedream-4.5"]) 2
      = Except.ok ["openai/gpt-5-image", "bytedance-seed/seedream-4.5"] ∧
    resolve_variation_models "openai/gpt-5-image" (some ["mystery-model"]) 1
      = Except.error
          { status_code := 400, error_type := "server"
            message := "Unknown model in model_ids: mystery-model" } ∧
    resolve_variation_models "openai/gpt-5-image" (some ["openai/gpt-5-image"]) 3
      = Except.ok ["openai/gpt-5-image", "openai/gpt-5-image", "openai/gpt-5-image"] := by
  have h1 := resolve_variation_models_spec "openai/gpt-5-image"
    ["openai/gpt-5-image", "bytedance-seed/seedream-4.5"] 2
  have h2 := resolve_variation_models_spec "openai/gpt-5-image" ["mystery-model"] 1
  have h3 := resolve_variation_models_spec "openai/gpt-5-image" ["openai/gpt-5-image"] 3
  refine ⟨h1.1 (by decide) (by decide) (by decide), ?_, ?_⟩
  · exact h2.2.1 (by decide) (by decide) "mystery-model" (by decide)
  · exact h3.2.2.1 (by decide)

/-- Whether the shared cancel flag is set at the given instant, for a
cancellation arriving at time cancel_at (none = never). -/
def cancel_signaled (cancel_at : Option Nat) (now : Nat) : Bool :=
  match cancel_at with
  | some t => decide (t ≤ now)
  | none => false

/-- The timed dispatch loop of the batch branch of generate() (generate.py
lines 211-221): for each variation index i, when i > 0 the loop runs
await asyncio.sleep(stagger_delay) — a plain sleep that always elapses in
full, since the cancel event is only a flag this code reads and no
wait_for races it — and only then checks cancel_event.is_set(), breaking
out while keeping the completed results.  Every dispatched variation is
modelled as succeeding after gen_dur i time units (retry and rate-limit
bookkeeping do not affect the stagger/cancellation behaviour claimed).
Arguments: remaining count, index i, clock, completed count; result:
(completed count, end time). -/
def batch_loop (stagger : Nat) (gen_dur : Nat → Nat) (cancel_at : Option Nat) :
    Nat → Nat → Nat → Nat → Nat × Nat
  | 0, _, now, completed => (completed, now)
  | remaining + 1, i, now, completed =>
    let now1 := if 0 < i then now + stagger else now
    if cancel_signaled cancel_at now1 then (completed, now1)
    else batch_loop stagger gen_dur cancel_at remaining (i + 1) (now1 + gen_dur i) (completed + 1)

/-- The batch dispatch of `variations` variations from time 0. -/
def run_batch (variations stagger : Nat) (gen_dur : Nat → Nat)
    (cancel_at : Option Nat) : Nat × Nat :=
  batch_loop stagger gen_dur cancel_at variations 0 0 0

/-- Counterexample for C9: two variations, stagger 5, each generation
taking 1 time unit, cancellation firing at time 2 — during the stagger
sleep that runs over the window from 1 to 6.  The claim requires the batch
to abort before the stagger delay fully elapses (before time 1 + 5 = 6),
but the code only observes the cancellation after the full sleep: it ends
at exactly time 6 (keeping the one completed variation), not earlier. -/
theorem stagger_sleep_counterexample :
    run_batch 2 5 (fun _ => 1) (some 2) = (1, 6) ∧ ¬ ((6 : Nat) < 1 + 5) := by
  exact ⟨rfl, by decide⟩

/-- C9 (amended): the inter-variation stagger sleep is not interruptible:
when cancellation fires at time t strictly inside the stagger window
[now, now + stagger) of a variation with index i > 0, the loop still
sleeps the full stagger delay and only then observes the flag, stopping at
exactly now + stagger without dispatching that variation or any later one,
while the completed count is kept unchanged. -/
theorem stagger_cancel_after_full_delay (stagger : Nat) (gen_dur : Nat → Nat)
    (t now completed remaining i : Nat) (hi : 0 < i) (h1 : now ≤ t)
    (h2 : t < now + stagger) :
    batch_loop stagger gen_dur (some t) (remaining + 1) i now completed
      = (completed, now + stagger) := by
  have hc : cancel_signaled (some t) (now + stagger) = true := by
    simp [cancel_signaled]
    omega
  simp [batch_loop, hi, hc]

/-- Witness for C9: first stagger sleep of variation 1 runs over [1, 6);
cancellation at time 2 stops the batch at exactly time 6. -/
theorem stagger_cancel_witness :
    batch_loop 5 (fun _ => 1) (some 2) 1 1 1 1 = (1, 1 + 5) :=
  stagger_cancel_after_full_delay 5 (fun _ => 1) 2 1 1 0 1 (by decide) (by decide)
    (by decide)
